import Mathlib

/-!
Verification of the footprint-crawler core (tracker classification, resource
weight classification, cookie capture, fingerprint severity, crawl engine
control flow, response attachment, persistence counters, consent text
matching, configuration structure).

Domains are modelled as lists of dot-separated labels: the Python code splits
domain strings on a dot and joins label suffixes back with dots, so a domain
string and its label list are in bijection (labels never contain a dot).
-/

namespace Footprint

/-- Substring test: Python `pat in s`, on the underlying character lists
(`pat` is a prefix of some suffix of `s`). -/
def strContains (s pat : String) : Bool :=
  (List.range (s.data.length + 1)).any (fun i => pat.data.isPrefixOf (s.data.drop i))

/-- Python `s.lower()`, character by character. -/
def strToLower (s : String) : String :=
  ⟨s.data.map Char.toLower⟩

/-- Python `s.upper()`, character by character. -/
def strToUpper (s : String) : String :=
  ⟨s.data.map Char.toUpper⟩

/-- Python `s.strip()`: whitespace removed from both ends. -/
def strTrim (s : String) : String :=
  ⟨((s.data.dropWhile Char.isWhitespace).reverse.dropWhile Char.isWhitespace).reverse⟩

/-- Join a label list back into a dotted domain string (Python `".".join`). -/
def joinDots (labels : List String) : String :=
  String.intercalate "." labels

/-- Python `domain.lstrip "."` on a label list: splitting a string with leading
dots yields leading empty labels, which lstrip removes. -/
def dropLeadingDots (labels : List String) : List String :=
  labels.dropWhile (fun l => l = "")

/-! ## Tracker database (`tracker_db.py`)

`BUILTIN_TRACKERS`: domain -> (entity, category), with the domain keys split
into label lists. -/

/-- The built-in tracker table of `tracker_db.py` (`BUILTIN_TRACKERS`). -/
def builtinTrackers : List (List String × String × String) := [
  (["google-analytics", "com"], "Google", "analytics"),
  (["googletagmanager", "com"], "Google", "analytics"),
  (["googleadservices", "com"], "Google", "advertising"),
  (["googlesyndication", "com"], "Google", "advertising"),
  (["doubleclick", "net"], "Google", "advertising"),
  (["googletagservices", "com"], "Google", "advertising"),
  (["google", "com"], "Google", "analytics"),
  (["googleapis", "com"], "Google", "cdn"),
  (["gstatic", "com"], "Google", "cdn"),
  (["youtube", "com"], "Google", "social"),
  (["ytimg", "com"], "Google", "cdn"),
  (["ggpht", "com"], "Google", "cdn"),
  (["googlevideo", "com"], "Google", "cdn"),
  (["googleusercontent", "com"], "Google", "cdn"),
  (["facebook", "com"], "Meta", "social"),
  (["facebook", "net"], "Meta", "advertising"),
  (["fbcdn", "net"], "Meta", "cdn"),
  (["instagram", "com"], "Meta", "social"),
  (["connect", "facebook", "net"], "Meta", "social"),
  (["fbsbx", "com"], "Meta", "social"),
  (["bing", "com"], "Microsoft", "advertising"),
  (["msn", "com"], "Microsoft", "advertising"),
  (["microsoft", "com"], "Microsoft", "analytics"),
  (["clarity", "ms"], "Microsoft", "analytics"),
  (["msecnd", "net"], "Microsoft", "cdn"),
  (["amazon-adsystem", "com"], "Amazon", "advertising"),
  (["amazonaws", "com"], "Amazon", "cdn"),
  (["cloudfront", "net"], "Amazon", "cdn"),
  (["twitter", "com"], "Twitter/X", "social"),
  (["t", "co"], "Twitter/X", "social"),
  (["twimg", "com"], "Twitter/X", "cdn"),
  (["demdex", "net"], "Adobe", "advertising"),
  (["omtrdc", "net"], "Adobe", "analytics"),
  (["2o7", "net"], "Adobe", "analytics"),
  (["adobe", "com"], "Adobe", "analytics"),
  (["typekit", "net"], "Adobe", "cdn"),
  (["criteo", "com"], "Criteo", "advertising"),
  (["criteo", "net"], "Criteo", "advertising"),
  (["taboola", "com"], "Taboola", "advertising"),
  (["outbrain", "com"], "Outbrain", "advertising"),
  (["adnxs", "com"], "Xandr", "advertising"),
  (["adsrvr", "org"], "The Trade Desk", "advertising"),
  (["hotjar", "com"], "Hotjar", "analytics"),
  (["hubspot", "com"], "HubSpot", "analytics"),
  (["hsforms", "com"], "HubSpot", "analytics"),
  (["hs-analytics", "net"], "HubSpot", "analytics"),
  (["quantserve", "com"], "Quantcast", "advertising"),
  (["quantcount", "com"], "Quantcast", "analytics"),
  (["bluekai", "com"], "Oracle", "advertising"),
  (["addthis", "com"], "Oracle", "social"),
  (["cloudflare", "com"], "Cloudflare", "cdn"),
  (["cloudflareinsights", "com"], "Cloudflare", "analytics"),
  (["newrelic", "com"], "New Relic", "analytics"),
  (["nr-data", "net"], "New Relic", "analytics"),
  (["sentry", "io"], "Sentry", "analytics"),
  (["pinimg", "com"], "Pinterest", "social"),
  (["pinterest", "com"], "Pinterest", "social"),
  (["linkedin", "com"], "LinkedIn", "social"),
  (["licdn", "com"], "LinkedIn", "cdn"),
  (["snapchat", "com"], "Snap", "social"),
  (["sc-static", "net"], "Snap", "cdn"),
  (["tiktok", "com"], "TikTok", "social"),
  (["byteoversea", "com"], "TikTok", "analytics"),
  (["yandex", "ru"], "Yandex", "analytics"),
  (["mc", "yandex", "ru"], "Yandex", "analytics"),
  (["sklik", "cz"], "Seznam.cz", "advertising"),
  (["imedia", "cz"], "Seznam.cz", "advertising"),
  (["im", "cz"], "Seznam.cz", "advertising"),
  (["sssp", "cz"], "Seznam.cz", "advertising"),
  (["seznam", "cz"], "Seznam.cz", "analytics"),
  (["toplist", "cz"], "Seznam.cz", "analytics"),
  (["heureka", "cz"], "Heureka Group", "analytics"),
  (["glami", "cz"], "Heureka Group", "analytics"),
  (["glami", "eco"], "Heureka Group", "analytics"),
  (["gemius", "com"], "Gemius", "analytics"),
  (["gemius", "pl"], "Gemius", "analytics"),
  (["gemiuscdn", "com"], "Gemius", "analytics"),
  (["adform", "net"], "Adform", "advertising"),
  (["adform", "com"], "Adform", "advertising"),
  (["adformdsp", "net"], "Adform", "advertising"),
  (["r2b2", "cz"], "R2B2", "advertising"),
  (["r2b2", "io"], "R2B2", "advertising"),
  (["impressionmedia", "cz"], "Impression Media", "advertising"),
  (["netmonitor", "cz"], "Mediaresearch", "analytics"),
  (["mediaresearch", "cz"], "Mediaresearch", "analytics"),
  (["zbozi", "cz"], "Seznam.cz", "analytics"),
  (["smartsupp", "com"], "Smartsupp", "analytics"),
  (["exponea", "com"], "Bloomreach", "analytics"),
  (["bloomreach", "com"], "Bloomreach", "analytics")]

/-- Dictionary lookup `self._lookup.get(domain)`. -/
def lookupFind (L : List (List String × String × String)) (key : List String) :
    Option (String × String) :=
  (L.find? (fun e => e.1 = key)).map (fun e => e.2)

/-- The walk of `TrackerDatabase.classify`: try removing subdomains one level
at a time (`for i in range(1, len(parts))`), returning the first hit. -/
def walkParents (L : List (List String × String × String)) (parts : List String) :
    Option (String × String) :=
  (List.range' 1 (parts.length - 1)).findSome? (fun i => lookupFind L (parts.drop i))

/-- Modelled from the spec: the public-suffix list consulted by the external
`tldextract` library (not part of the repository).  Represented here by the
suffixes relevant to the built-in tracker table; the registered domain is one
label plus the longest matching suffix. -/
def publicSuffixes : List (List String) :=
  [["com"], ["net"], ["org"], ["cz"], ["ru"], ["io"], ["pl"], ["eco"], ["ms"],
   ["co"], ["uk"], ["co", "uk"]]

/-- Modelled from the spec: `utils.extract_registered_domain` delegates to the
external `tldextract` library and falls back to returning the input hostname
when no registered domain exists (bare suffixes, IPs).  The longest matching
public suffix corresponds to the smallest drop index. -/
def extract_registered_domain (labels : List String) : List String :=
  match (List.range (labels.length + 1)).find? (fun i => (labels.drop i) ∈ publicSuffixes) with
  | some i => if 1 ≤ i then labels.drop (i - 1) else labels
  | none => labels

/-- `TrackerDatabase.classify`: exact hit, then registered-domain hit, then the
parent walk; `(none, none)` when unknown.  The registered-domain extractor is a
parameter (it is an external library call in the source). -/
def classify (reg : List String → List String) (L : List (List String × String × String))
    (domain : List String) : Option String × Option String :=
  match lookupFind L domain with
  | some (e, c) => (some e, some c)
  | none =>
    match lookupFind L (reg domain) with
    | some (e, c) => (some e, some c)
    | none =>
      match walkParents L domain with
      | some (e, c) => (some e, some c)
      | none => (none, none)

/-- `TRACKING_COOKIE_PATTERNS` from `tracker_db.py`. -/
def trackingCookiePatterns : List String := [
  "_ga", "_gid", "_gat", "_gcl_au", "_gac_",
  "IDE", "NID", "DSID", "1P_JAR", "ANID", "CONSENT",
  "_fbp", "_fbc", "fr", "datr", "sb",
  "_uetsid", "_uetvid", "MUID", "_clck", "_clsk",
  "_hjid", "_hjSession", "_hjSessionUser", "_hjAbsoluteSessionInProgress",
  "hubspotutk", "__hssc", "__hssrc", "__hstc",
  "__utm",
  "cto_bundle", "cto_bidid",
  "s_cc", "s_sq", "s_vi",
  "sid", "lps",
  "_pk_id", "_pk_ses"]

/-- `_is_tracking_cookie_by_name`: case-folded equality or prefix match. -/
def isTrackingCookieByName (name : String) : Bool :=
  trackingCookiePatterns.any (fun pat =>
    strToLower name = strToLower pat || ((strToLower pat).data).isPrefixOf ((strToLower name).data))

/-- `TrackerDatabase.is_tracking_cookie`: name pattern or domain entity. -/
def is_tracking_cookie (reg : List String → List String)
    (L : List (List String × String × String))
    (name : String) (domain : List String) : Bool :=
  isTrackingCookieByName name || ((classify reg L (dropLeadingDots domain)).1).isSome

/-! ## Request records and resource weight classification (`models.py`, `resource_weight.py`) -/

/-- `models.RequestRecord` (domain as a label list). -/
structure RequestRecord where
  url : String
  domain : List String
  method : String
  resource_type : String
  is_third_party : Bool
  tracker_entity : Option String := none
  tracker_category : Option String := none
  status_code : Option Int := none
  response_size_bytes : Option Int := none
  timing_ms : Option ℚ := none
  timestamp : String := ""
  resource_category : Option String := none
  content_type : Option String := none
  deriving Repr, DecidableEq

/-- `models.ResourceCategory`. -/
inductive ResourceCategory where
  | content_1p
  | cdn
  | tracker
  | ad
  | functional_3p
  | unknown_3p
  deriving Repr, DecidableEq

/-- The `.value` string of each `ResourceCategory` member. -/
def ResourceCategory.value : ResourceCategory → String
  | .content_1p => "content_1p"
  | .cdn => "cdn"
  | .tracker => "tracker"
  | .ad => "ad"
  | .functional_3p => "functional_3p"
  | .unknown_3p => "unknown_3p"

/-- `CDN_DOMAINS` of `resource_weight.py` (exact-match set). -/
def CDN_DOMAINS : List String := [
  "cdnjs.cloudflare.com",
  "fonts.googleapis.com",
  "fonts.gstatic.com",
  "cdn.jsdelivr.net",
  "unpkg.com",
  "ajax.googleapis.com",
  "maxcdn.bootstrapcdn.com",
  "stackpath.bootstrapcdn.com",
  "code.jquery.com"]

/-- `CDN_PATTERNS` of `resource_weight.py` (substring match). -/
def CDN_PATTERNS : List String :=
  ["cloudfront.net", "akamaized.net", "akamai.net", "fastly.net",
   "azureedge.net", "cloudflare.com"]

/-- `FUNCTIONAL_3P_DOMAINS` of `resource_weight.py`. -/
def FUNCTIONAL_3P_DOMAINS : List String :=
  ["recaptcha.net", "hcaptcha.com", "stripe.com", "paypal.com",
   "braintreegateway.com", "gstatic.com", "twimg.com"]

/-- `FUNCTIONAL_3P_PATTERNS` of `resource_weight.py`. -/
def FUNCTIONAL_3P_PATTERNS : List String :=
  ["maps.google", "maps.googleapis", "recaptcha", "hcaptcha"]

/-- `AD_DOMAIN_PATTERNS` of `resource_weight.py`. -/
def AD_DOMAIN_PATTERNS : List String :=
  ["doubleclick.net", "googlesyndication.com", "googleadservices.com",
   "amazon-adsystem.com", "adnxs.com", "adsrvr.org"]

/-- `ResourceWeightClassifier.classify_request`, with the tracker database's
registered-domain extractor as a parameter. -/
def classify_request (reg : List String → List String) (record : RequestRecord)
    (_site_reg_domain : List String) : String :=
  if !record.is_third_party then ResourceCategory.content_1p.value
  else
    let domain := record.domain
    let ec := classify reg builtinTrackers domain
    if ec.2 = some "advertising" then ResourceCategory.ad.value
    else if ec.2 = some "analytics" ∨ ec.2 = some "fingerprinting" ∨ ec.2 = some "social" then
      ResourceCategory.tracker.value
    else if joinDots domain ∈ CDN_DOMAINS then ResourceCategory.cdn.value
    else if CDN_PATTERNS.any (fun pat => strContains (joinDots domain) pat) then
      ResourceCategory.cdn.value
    else if joinDots domain ∈ FUNCTIONAL_3P_DOMAINS then ResourceCategory.functional_3p.value
    else if FUNCTIONAL_3P_PATTERNS.any (fun pat => strContains (joinDots domain) pat) then
      ResourceCategory.functional_3p.value
    else if AD_DOMAIN_PATTERNS.any (fun pat => strContains (joinDots domain) pat) then
      ResourceCategory.ad.value
    else if ec.1.isSome then ResourceCategory.tracker.value
    else ResourceCategory.unknown_3p.value

/-! ## Cookie capture (`engine._capture_cookies`) -/

/-- A raw browser cookie as reported by the automation driver
(`context.cookies()`); `expires` is absent or a Unix-epoch value. -/
structure RawCookie where
  name : String
  domain : List String
  value : String := ""
  path : String := "/"
  expires : Option ℚ := none
  secure : Bool := false
  httpOnly : Bool := false
  sameSite : String := "None"
  deriving Repr, DecidableEq

/-- `models.CookieRecord`; `expires_at` keeps the expiry epoch instant that the
source formats as an ISO-8601 string, and `value_hash` the hash output. -/
structure CookieRecord where
  name : String
  domain : List String
  value_hash : String
  path : String
  expires_at : Option ℚ := none
  lifetime_days : Option ℚ := none
  is_secure : Bool := false
  is_http_only : Bool := false
  same_site : String := "None"
  is_session : Bool := true
  is_tracking_cookie : Bool := false
  tracker_entity : Option String := none
  set_before_consent : Bool := false
  timestamp : String := ""
  deriving Repr, DecidableEq

/-- The loop body of `engine._capture_cookies` for one raw cookie `c`:
`hash` stands for `hash_cookie_value` (SHA-256) and `nowIso` for `now_iso()`. -/
def captureCookie (reg : List String → List String) (hash : String → String)
    (nowIso : String) (currentTime : ℚ)
    (pre_consent_cookies : List (String × List String)) (c : RawCookie) : CookieRecord :=
  let expires : ℚ := c.expires.getD (-1)
  let is_session : Bool := expires ≤ 0
  let expires_at : Option ℚ := if !is_session ∧ 0 < expires then some expires else none
  let lifetime_days : Option ℚ :=
    if !is_session ∧ 0 < expires then some ((expires - currentTime) / 86400) else none
  let was_before_consent : Bool := (c.name, c.domain) ∈ pre_consent_cookies
  let entity := (classify reg builtinTrackers (dropLeadingDots c.domain)).1
  { name := c.name
    domain := c.domain
    value_hash := hash c.value
    path := c.path
    expires_at := expires_at
    lifetime_days := lifetime_days
    is_secure := c.secure
    is_http_only := c.httpOnly
    same_site := c.sameSite
    is_session := is_session
    is_tracking_cookie := is_tracking_cookie reg builtinTrackers c.name c.domain
    tracker_entity := entity
    set_before_consent := was_before_consent
    timestamp := nowIso }

/-- `engine._capture_cookies` over the full raw cookie list. -/
def capture_cookies (reg : List String → List String) (hash : String → String)
    (nowIso : String) (currentTime : ℚ)
    (pre_consent_cookies : List (String × List String)) (raw : List RawCookie) :
    List CookieRecord :=
  raw.map (captureCookie reg hash nowIso currentTime pre_consent_cookies)

/-! ## Fingerprint detection (`fingerprint.py`) -/

/-- `models.FingerprintSeverity`. -/
inductive FingerprintSeverity where
  | none
  | passive
  | active
  | aggressive
  deriving Repr, DecidableEq

/-- A raw event read back from `window.__fp_log`. -/
structure RawFpEvent where
  api : String
  method : String
  stack : String := ""
  timestamp : ℚ := 0
  details : Option String := none
  deriving Repr, DecidableEq

/-- `models.FingerprintEvent` (domain as a label list). -/
structure FingerprintEvent where
  api : String
  method : String
  timestamp : String := ""
  call_stack_domain : Option (List String) := none
  tracker_entity : Option String := none
  details : Option String := none
  deriving Repr, DecidableEq

/-- `models.FingerprintResult`. -/
structure FingerprintResult where
  severity : FingerprintSeverity := .none
  events : List FingerprintEvent := []
  canvas_detected : Bool := false
  webgl_detected : Bool := false
  audio_detected : Bool := false
  font_detected : Bool := false
  navigator_detected : Bool := false
  storage_detected : Bool := false
  unique_apis : Nat := 0
  unique_entities : Nat := 0
  deriving Repr, DecidableEq

/-- `_ACTIVE_APIS` from `fingerprint.py`. -/
def activeAPIs : List String := ["canvas", "webgl", "audio"]

/-- `FingerprintDetector._classify_severity` over the distinct observed API
families and the event count. -/
def classifySeverity (apis : List String) (event_count : Nat) : FingerprintSeverity :=
  if event_count = 0 then .none
  else
    let active_detected := apis.filter (fun a => a ∈ activeAPIs)
    if active_detected = [] then .passive
    else if 2 ≤ active_detected.length then .aggressive
    else .active

/-- The `apis_seen` accumulation of `collect_results`: a Python set, modelled
as an insertion-ordered list without duplicates. -/
def apisSeen (raw : List RawFpEvent) : List String :=
  raw.foldl (fun acc e => if e.api ∈ acc then acc else acc ++ [e.api]) []

/-- `FingerprintDetector._extract_domain_from_stack`; `findUrls` stands for the
regex scan for URL hostnames in the stack text (hostnames as label lists). -/
def extractDomainFromStack (reg : List String → List String)
    (findUrls : String → List (List String)) (stack : String) : Option (List String) :=
  if stack = "" then none
  else (findUrls stack).findSome? (fun hostname =>
    let reg_domain := reg hostname
    if reg_domain ≠ [] then some reg_domain else none)

/-- `FingerprintDetector.collect_results` on the raw event log; `toIso`
stands for the epoch-milliseconds to ISO-8601 timestamp conversion. -/
def collect_results (reg : List String → List String)
    (findUrls : String → List (List String)) (toIso : ℚ → String)
    (raw : List RawFpEvent) : FingerprintResult :=
  let events : List FingerprintEvent := raw.map (fun r =>
    let domain := extractDomainFromStack reg findUrls r.stack
    let entity := match domain with
      | some d => (classify reg builtinTrackers d).1
      | none => none
    { api := r.api
      method := r.method
      timestamp := toIso r.timestamp
      call_stack_domain := domain
      tracker_entity := entity
      details := r.details })
  let apis := apisSeen raw
  let entities : List String := events.foldl (fun acc e =>
    match e.tracker_entity with
    | some ent => if ent ∈ acc then acc else acc ++ [ent]
    | none => acc) []
  { severity := classifySeverity apis events.length
    events := events
    canvas_detected := "canvas" ∈ apis
    webgl_detected := "webgl" ∈ apis
    audio_detected := "audio" ∈ apis
    font_detected := "font" ∈ apis
    navigator_detected := "navigator" ∈ apis
    storage_detected := "storage" ∈ apis
    unique_apis := apis.length
    unique_entities := entities.length }

/-! ## Crawl engine control flow (`engine.crawl_site`) -/

/-- `models.ConsentMode`. -/
inductive ConsentMode where
  | ignore
  | accept
  | reject
  deriving Repr, DecidableEq

/-- `models.CrawlStatus`. -/
inductive CrawlStatus where
  | success
  | timeout
  | error
  | blocked
  deriving Repr, DecidableEq

/-- `models.SiteInfo`. -/
structure SiteInfo where
  url : String
  domain : String
  category : Option String := none
  rank_cz : Option Int := none
  deriving Repr, DecidableEq

/-- `models.ConsentInfo`. -/
structure ConsentInfo where
  banner_detected : Bool := false
  cmp_platform : Option String := none
  button_text : Option String := none
  action_taken : Bool := false
  deriving Repr, DecidableEq

/-- `models.CrawlResult`.  The Phase-2 ad-detection, ad-capture and
resource-weight result attachments are not modelled: no claim refers to
them. -/
structure CrawlResult where
  site : SiteInfo
  consent_mode : ConsentMode
  status : CrawlStatus
  started_at : String := ""
  completed_at : String := ""
  final_url : Option String := none
  page_title : Option String := none
  load_time_ms : Option Int := none
  requests : List RequestRecord := []
  cookies : List CookieRecord := []
  consent_info : Option ConsentInfo := none
  screenshot_path : Option String := none
  error : Option String := none
  fingerprint_result : Option FingerprintResult := none
  deriving Repr, DecidableEq

/-- The timeout test of `crawl_site`'s navigation handler:
`"timeout" in error_str.lower() or "Timeout" in error_str`. -/
def containsTimeout (s : String) : Bool :=
  strContains (strToLower s) "timeout" || strContains s "Timeout"

/-- One concrete execution of a crawl task, as the engine observes it: which
phase failed (if any) and what had been captured by then.  `navError` is the
exception message raised by navigation, `laterError` an unhandled exception in
any phase after navigation; `navRequests` are the request records captured
when navigation ends, `postNavRequests` those appended afterwards. -/
structure CrawlWorld where
  site : SiteInfo
  mode : ConsentMode
  startedAt : String
  nowIso : String
  pageTimeoutMs : Int
  navError : Option String := none
  navRequests : List RequestRecord := []
  postNavRequests : List RequestRecord := []
  laterError : Option String := none
  loadTimeMs : Int := 0
  cookies : List CookieRecord := []
  consentInfo : ConsentInfo := {}
  finalUrl : Option String := none
  pageTitle : Option String := none
  fingerprint : Option FingerprintResult := none
  deriving Repr

/-- The request records captured at the moment control leaves the main `try`
block of `crawl_site` (navigation failures re-raise before any later capture;
later failures see everything appended so far). -/
def capturedSoFar (w : CrawlWorld) : List RequestRecord :=
  match w.navError with
  | some _ => w.navRequests
  | none => w.navRequests ++ w.postNavRequests

/-- The body of `crawl_site`'s outer `try`: the navigation `try/except`
returns a TIMEOUT result for timeout errors and re-raises otherwise; any later
unhandled exception propagates; otherwise the SUCCESS result is built. -/
def crawl_site_phases (w : CrawlWorld) : Except String CrawlResult :=
  match w.navError with
  | some msg =>
    if containsTimeout msg then
      .ok { site := w.site
            consent_mode := w.mode
            status := .timeout
            started_at := w.startedAt
            completed_at := w.nowIso
            load_time_ms := some w.pageTimeoutMs
            requests := w.navRequests
            error := some msg }
    else .error msg
  | none =>
    match w.laterError with
    | some msg => .error msg
    | none =>
      .ok { site := w.site
            consent_mode := w.mode
            status := .success
            started_at := w.startedAt
            completed_at := w.nowIso
            final_url := w.finalUrl
            page_title := w.pageTitle
            load_time_ms := some w.loadTimeMs
            requests := w.navRequests ++ w.postNavRequests
            cookies := w.cookies
            consent_info := some w.consentInfo
            fingerprint_result := w.fingerprint }

/-- `engine.crawl_site`: the outer `except Exception` handler turns any
propagated exception into an ERROR result carrying the records captured so
far. -/
def crawl_site (w : CrawlWorld) : CrawlResult :=
  match crawl_site_phases w with
  | .ok r => r
  | .error msg =>
    { site := w.site
      consent_mode := w.mode
      status := .error
      started_at := w.startedAt
      completed_at := w.nowIso
      requests := capturedSoFar w
      error := some msg }

/-! ## Response attachment (`engine.on_response`) -/

/-- The data `on_response` extracts from a response event: status, the parsed
`content-length` header when present and parseable, the `content-type` header
when present, and the latency when the request URL had a recorded start
time. -/
structure RespInfo where
  url : String
  status : Int
  size : Option Int := none
  contentType : Option String := none
  timing : Option ℚ := none
  deriving Repr, DecidableEq

/-- The field updates `on_response` applies to the matched record. -/
def setResp (r : RequestRecord) (resp : RespInfo) : RequestRecord :=
  { r with
    status_code := some resp.status
    response_size_bytes := match resp.size with
      | some n => some n
      | none => r.response_size_bytes
    content_type := match resp.contentType with
      | some ct => some ct
      | none => r.content_type
    timing_ms := match resp.timing with
      | some t => some t
      | none => r.timing_ms }

/-- The match condition of `on_response`: same URL and no status yet. -/
def respMatches (resp : RespInfo) (r : RequestRecord) : Bool :=
  r.url = resp.url && r.status_code = none

/-- The `for record in reversed(captured_requests)` loop: update the first
matching record of the reversed list and stop. -/
def onResponseRev (resp : RespInfo) : List RequestRecord → List RequestRecord
  | [] => []
  | r :: rest =>
    if respMatches resp r then setResp r resp :: rest
    else r :: onResponseRev resp rest

/-- `engine.on_response` as a transformation of the captured request list. -/
def on_response (records : List RequestRecord) (resp : RespInfo) : List RequestRecord :=
  (onResponseRev resp records.reverse).reverse

/-! ## Persistence (`db.Database.save_crawl_result`)

The Phase-2 summary columns (`fp_*`, `ad_*`, `rw_*`) of the session row are
not modelled: no claim refers to them. -/

/-- The `crawl_sessions` row written by `save_crawl_result`. -/
structure SessionRow where
  site_id : Int
  consent_mode : ConsentMode
  started_at : String
  completed_at : String
  final_url : Option String
  page_title : Option String
  load_time_ms : Option Int
  total_requests : Nat
  third_party_requests : Nat
  total_cookies_set : Nat
  tracking_cookies_set : Nat
  consent_banner_detected : Option Bool
  consent_cmp : Option String
  consent_button_text : Option String
  consent_action_taken : Option Bool
  screenshot_path : Option String
  error : Option String
  status : CrawlStatus
  deriving Repr, DecidableEq

/-- A `requests` row written by `save_crawl_result`. -/
structure RequestRow where
  session_id : Int
  record : RequestRecord
  deriving Repr, DecidableEq

/-- A `cookies` row written by `save_crawl_result`. -/
structure CookieRow where
  session_id : Int
  record : CookieRecord
  deriving Repr, DecidableEq

/-- `Database.save_crawl_result`: the session row plus the child rows written
in the same transaction. -/
def save_crawl_result (site_id session_id : Int) (result : CrawlResult) :
    SessionRow × List RequestRow × List CookieRow :=
  let third_party_requests := result.requests.countP (fun r => r.is_third_party)
  let tracking_cookies := result.cookies.countP (fun c => c.is_tracking_cookie)
  let row : SessionRow :=
    { site_id := site_id
      consent_mode := result.consent_mode
      started_at := result.started_at
      completed_at := result.completed_at
      final_url := result.final_url
      page_title := result.page_title
      load_time_ms := result.load_time_ms
      total_requests := result.requests.length
      third_party_requests := third_party_requests
      total_cookies_set := result.cookies.length
      tracking_cookies_set := tracking_cookies
      consent_banner_detected := result.consent_info.map (fun c => c.banner_detected)
      consent_cmp := result.consent_info.bind (fun c => c.cmp_platform)
      consent_button_text := result.consent_info.bind (fun c => c.button_text)
      consent_action_taken := result.consent_info.map (fun c => c.action_taken)
      screenshot_path := result.screenshot_path
      error := result.error
      status := result.status }
  let requestRows := result.requests.map (fun r => RequestRow.mk session_id r)
  let cookieRows := result.cookies.map (fun c => CookieRow.mk session_id c)
  (row, requestRows, cookieRows)

/-! ## Consent text matching (`consent.py`)

The strategies are modelled by their matching and clicking logic: the page is
an input giving, per locator query, the candidate elements in document order
(text as reported by `inner_text`, visibility, and the result of the
`_is_consent_context` ancestor walk). -/

/-- A clickable candidate element. -/
structure ElementInfo where
  text : String
  visible : Bool := true
  consentContext : Bool := false
  deriving Repr, DecidableEq

/-- The shadow-root scan of `_try_shadow_dom_banner`'s injected script:
buttons in order, patterns in order, click on the first lowercased trimmed
non-empty button text containing a pattern; returns (clicked text, pattern). -/
def shadowButtonsClick (texts : List String) (buttons : List String) :
    Option (String × String) :=
  buttons.findSome? (fun b =>
    let btnText := strTrim (strToLower b)
    if btnText = "" then none
    else texts.findSome? (fun pat =>
      if strContains btnText pat then some (btnText, pat) else none))

/-- `ConsentHandler._try_shadow_dom_banner`: hosts are given with their open
shadow-root button texts (`none`: host absent or shadow root closed).  A host
whose scan clicks returns a `shadow_dom_<selector>` outcome; a host found
without a matching button falls through to the next host. -/
def try_shadow_dom_banner (texts : List String)
    (hosts : List (String × Option (List String))) : Option ConsentInfo :=
  hosts.findSome? (fun h =>
    match h.2 with
    | none => none
    | some buttons =>
      match shadowButtonsClick texts buttons with
      | some (btnText, _) =>
        some { banner_detected := true
               cmp_platform := some ("shadow_dom_" ++ h.1)
               button_text := some btnText
               action_taken := true }
      | none => none)

/-- `ConsentHandler._try_get_by_text`: patterns in order (skipping `"ok"`),
the first five matches per pattern; click needs visibility, trimmed text of at
most 80 characters and a consent-contextual ancestor. -/
def try_get_by_text (texts : List String) (elsOf : String → List ElementInfo) :
    Option ConsentInfo :=
  texts.findSome? (fun pat =>
    if pat = "ok" then none
    else ((elsOf pat).take 5).findSome? (fun el =>
      if !el.visible then none
      else
        let t := strTrim el.text
        if 80 < t.length then none
        else if !el.consentContext then none
        else some { banner_detected := true
                    cmp_platform := some "get_by_text"
                    button_text := some t
                    action_taken := true }))

/-- `ConsentHandler._try_get_by_role`: patterns in order (skipping `"ok"`),
first element of the role query; click needs visibility and a
consent-contextual ancestor. -/
def try_get_by_role (texts : List String) (roleOf : String → List ElementInfo) :
    Option ConsentInfo :=
  texts.findSome? (fun pat =>
    if pat = "ok" then none
    else
      match (roleOf pat).head? with
      | none => none
      | some el =>
        if el.visible ∧ el.consentContext then
          some { banner_detected := true
                 cmp_platform := some "get_by_role"
                 button_text := some (strTrim el.text)
                 action_taken := true }
        else none)

/-- `ConsentHandler._find_button_in_container` (used by the CSS-banner
strategy): patterns in order (skipping `"ok"`), first 30 buttons; click needs
visibility, the pattern inside the lowercased text, and length under 80. -/
def find_button_in_container (texts : List String) (cmp_label : String)
    (buttons : List ElementInfo) : Option ConsentInfo :=
  texts.findSome? (fun pat =>
    if pat = "ok" then none
    else (buttons.take 30).findSome? (fun el =>
      if !el.visible then none
      else
        let t := strTrim el.text
        if strContains (strToLower t) pat ∧ t.length < 80 then
          some { banner_detected := true
                 cmp_platform := some cmp_label
                 button_text := some t
                 action_taken := true }
        else none))

/-- `ConsentHandler._try_text_match_in_frame`: patterns in order (skipping
`"ok"`), first 30 elements; click needs the pattern inside the lowercased
text and length under 80. -/
def try_text_match_in_frame (texts : List String) (elements : List ElementInfo) :
    Option ConsentInfo :=
  texts.findSome? (fun pat =>
    if pat = "ok" then none
    else (elements.take 30).findSome? (fun el =>
      let t := strTrim el.text
      if strContains (strToLower t) pat ∧ t.length < 80 then
        some { banner_detected := true
               cmp_platform := some "iframe_text"
               button_text := some t
               action_taken := true }
      else none))

/-- The frame-URL keyword gate of `_try_nested_iframe_cmp`. -/
def nestedIframeKeywords : List String :=
  ["consent", "cookie", "gdpr", "privacy", "cmp", "sp_message", "sourcepoint", "quantcast"]

/-- `ConsentHandler._try_nested_iframe_cmp`: frames in order; a frame whose
URL contains a keyword is scanned with patterns in order (skipping `"ok"`)
over its first 20 elements. -/
def try_nested_iframe_cmp (texts : List String)
    (frames : List (String × List ElementInfo)) : Option ConsentInfo :=
  frames.findSome? (fun fr =>
    if nestedIframeKeywords.any (fun kw => strContains (strToLower fr.1) kw) then
      texts.findSome? (fun pat =>
        if pat = "ok" then none
        else (fr.2.take 20).findSome? (fun el =>
          let t := strTrim el.text
          if strContains (strToLower t) pat ∧ t.length < 80 then
            some { banner_detected := true
                   cmp_platform := some "iframe_cmp"
                   button_text := some t
                   action_taken := true }
          else none))
    else none)

/-- `ConsentHandler._try_ok_button` (last resort): first 30 buttons; click
needs the trimmed text to uppercase to exactly `"OK"` and a
consent-contextual ancestor; reported as `ok_fallback`. -/
def try_ok_button (buttons : List ElementInfo) : Option ConsentInfo :=
  (buttons.take 30).findSome? (fun el =>
    let t := strTrim el.text
    if strToUpper t ≠ "OK" then none
    else if el.consentContext then
      some { banner_detected := true
             cmp_platform := some "ok_fallback"
             button_text := some "OK"
             action_taken := true }
    else none)

/-- `ConsentHandler._try_text_match`: patterns in order (skipping `"ok"`) over
the first 50 elements; click needs the pattern inside the lowercased text,
length at most 80, and a consent-contextual ancestor unless the text has at
least 4 characters; in ACCEPT mode only, falls back to the OK-button scan. -/
def try_text_match (mode : ConsentMode) (acceptTexts rejectTexts : List String)
    (elements : List ElementInfo) (okButtons : List ElementInfo) : Option ConsentInfo :=
  let texts := if mode = .accept then acceptTexts else rejectTexts
  let matchResult := texts.findSome? (fun pat =>
    if pat = "ok" then none
    else (elements.take 50).findSome? (fun el =>
      let t := strTrim el.text
      if !(strContains (strToLower t) pat) then none
      else if 80 < t.length then none
      else if !el.consentContext ∧ t.length < 4 then none
      else some { banner_detected := true
                  cmp_platform := some "text_match"
                  button_text := some t
                  action_taken := true }))
  match matchResult with
  | some r => some r
  | none => if mode = .accept then try_ok_button okButtons else none

/-! ## Configuration structure (`config.py`, `cli.py`) -/

/-- The field names of the `CrawlerConfig` dataclass in `config.py`; these are
the keys `_build_nested` and `load_config` recognize at the top level. -/
def crawlerConfigFields : List String :=
  ["project_root", "crawler", "browser", "database", "consent_patterns",
   "output", "sites_file"]

/-- The Phase-2 configuration groups that `cli.py` reads from the
configuration object (`config.fingerprinting`, `config.ads`,
`config.ad_capture`, `config.resource_weight`) and whose settings classes the
Phase-2 modules import from `config.py`. -/
def phase2ConfigGroups : List String :=
  ["fingerprinting", "ads", "ad_capture", "resource_weight"]

/-- The key filter of `_build_nested`: YAML keys not among the dataclass
field names are dropped. -/
def buildNestedKeys (fieldnames : List String) (data : List String) : List String :=
  data.filter (fun key => key ∈ fieldnames)

/-! ## Theorems -/

/-- C1: for every cookie record produced by the final cookie capture, the
`set_before_consent` flag is true exactly when the record's (name, domain)
pair belongs to the pre-consent snapshot set. -/
theorem cookie_set_before_consent_iff_pre_snapshot
    (reg : List String → List String) (hash : String → String)
    (nowIso : String) (t : ℚ) (pre : List (String × List String))
    (raw : List RawCookie) (rec : CookieRecord)
    (hrec : rec ∈ capture_cookies reg hash nowIso t pre raw) :
    rec.set_before_consent = true ↔ (rec.name, rec.domain) ∈ pre := by
  rcases List.mem_map.mp hrec with ⟨c, _, rfl⟩
  simp [captureCookie]

/-- Witness for C1 at a concrete raw cookie list and snapshot (scenario C of
the spec: `_ga` present before consent). -/
theorem cookie_set_before_consent_witness :
    ∃ rec ∈ capture_cookies extract_registered_domain (fun v => v) "now" 0
        [("_ga", ["", "example", "cz"])]
        [{ name := "_ga", domain := ["", "example", "cz"] },
         { name := "_fbp", domain := ["", "example", "cz"] }],
      (rec.set_before_consent = true
        ↔ (rec.name, rec.domain) ∈ [("_ga", ["", "example", "cz"])]) := by
  have hmem : captureCookie extract_registered_domain (fun v => v) "now" 0
      [("_ga", ["", "example", "cz"])] { name := "_ga", domain := ["", "example", "cz"] }
      ∈ capture_cookies extract_registered_domain (fun v => v) "now" 0
        [("_ga", ["", "example", "cz"])]
        [{ name := "_ga", domain := ["", "example", "cz"] },
         { name := "_fbp", domain := ["", "example", "cz"] }] :=
    List.mem_map.mpr ⟨_, List.mem_cons_self _ _, rfl⟩
  exact ⟨_, hmem, cookie_set_before_consent_iff_pre_snapshot _ _ _ _ _ _ _ hmem⟩

/-- C10: for every captured cookie record, `is_session` holds exactly when
the reported expiry is absent or at most zero; `expires_at` and
`lifetime_days` are non-null exactly when the cookie is not a session cookie,
and the lifetime is `(expires - capture time) / 86400` days. -/
theorem cookie_lifetime_fields (reg : List String → List String)
    (hash : String → String) (nowIso : String) (t : ℚ)
    (pre : List (String × List String)) (c : RawCookie) :
    (((captureCookie reg hash nowIso t pre c).is_session = true) ↔ c.expires.getD (-1) ≤ 0)
    ∧ ((((captureCookie reg hash nowIso t pre c).expires_at ≠ none)
        ∧ (captureCookie reg hash nowIso t pre c).lifetime_days ≠ none)
      ↔ (captureCookie reg hash nowIso t pre c).is_session = false)
    ∧ (0 < c.expires.getD (-1) →
        (captureCookie reg hash nowIso t pre c).lifetime_days
          = some ((c.expires.getD (-1) - t) / 86400)
        ∧ (captureCookie reg hash nowIso t pre c).expires_at = some (c.expires.getD (-1))) := by
  by_cases h : c.expires.getD (-1) ≤ 0
  · simp [captureCookie, h, not_lt.mpr h]
  · simp [captureCookie, h, lt_of_not_ge h]

/-- Witness for C10 at a concrete persistent cookie. -/
theorem cookie_lifetime_witness :
    ((captureCookie extract_registered_domain (fun v => v) "now" 100
        [] { name := "a", domain := ["example", "cz"], expires := some 864100 }).lifetime_days
      = some ((864100 - 100) / 86400)) := by
  have h := cookie_lifetime_fields extract_registered_domain (fun v => v) "now" 100
    [] { name := "a", domain := ["example", "cz"], expires := some 864100 }
  exact (h.2.2 (by norm_num)).1

/-- C3: the session row written by `save_crawl_result` carries
`total_cookies_set` equal to the number of cookie child rows of the same
transaction, and `tracking_cookies_set` equal to the number of those rows
whose record has the tracking flag. -/
theorem session_counters_derived_from_child_rows (site_id session_id : Int)
    (result : CrawlResult) :
    (save_crawl_result site_id session_id result).1.total_cookies_set
      = (save_crawl_result site_id session_id result).2.2.length
    ∧ (save_crawl_result site_id session_id result).1.tracking_cookies_set
      = (save_crawl_result site_id session_id result).2.2.countP
          (fun row => row.record.is_tracking_cookie) := by
  constructor
  · simp [save_crawl_result]
  · simp only [save_crawl_result, List.countP_map]
    rfl

/-- C8: the configuration object built by `config.py` does not recognize the
Phase-2 groups that `cli.py` and the Phase-2 modules require: none of
`fingerprinting`, `ads`, `ad_capture`, `resource_weight` is a `CrawlerConfig`
field, and `_build_nested`'s key filter drops all four. -/
theorem phase2_config_groups_missing :
    phase2ConfigGroups.all (fun g => !(crawlerConfigFields.contains g)) = true
    ∧ buildNestedKeys crawlerConfigFields phase2ConfigGroups = [] := by
  constructor
  · decide
  · decide

/-- C5: a navigation failure whose message signals a timeout yields a TIMEOUT
result carrying exactly the requests captured up to that point and the error
message; an unhandled exception in any later phase yields an ERROR result
with the records captured so far. -/
theorem crawl_site_timeout_and_error_paths (w : CrawlWorld) :
    (∀ msg, w.navError = some msg → containsTimeout msg = true →
      crawl_site w = { site := w.site
                       consent_mode := w.mode
                       status := .timeout
                       started_at := w.startedAt
                       completed_at := w.nowIso
                       load_time_ms := some w.pageTimeoutMs
                       requests := w.navRequests
                       error := some msg })
    ∧ (∀ msg, w.navError = none → w.laterError = some msg →
      crawl_site w = { site := w.site
                       consent_mode := w.mode
                       status := .error
                       started_at := w.startedAt
                       completed_at := w.nowIso
                       requests := w.navRequests ++ w.postNavRequests
                       error := some msg }) := by
  constructor
  · intro msg hnav htimeout
    simp [crawl_site, crawl_site_phases, hnav, htimeout]
  · intro msg hnav hlater
    simp [crawl_site, crawl_site_phases, capturedSoFar, hnav, hlater]

/-- Witness for C5: a concrete timed-out navigation and a concrete
later-phase failure. -/
theorem crawl_site_paths_witness :
    let site : SiteInfo := { url := "https://example.cz", domain := "example.cz" }
    let w : CrawlWorld := { site := site, mode := .accept, startedAt := "s",
                            nowIso := "e", pageTimeoutMs := 45000,
                            navError := some "Timeout 45000ms exceeded" }
    (crawl_site w).status = CrawlStatus.timeout ∧ (crawl_site w).requests = [] := by
  intro site w
  have h := (crawl_site_timeout_and_error_paths w).1 "Timeout 45000ms exceeded" rfl (by decide)
  rw [h]
  exact ⟨rfl, rfl⟩

/-- The event log of spec scenario D: three `canvas.toDataURL` calls and one
`webgl.getParameter(UNMASKED_RENDERER_WEBGL)` call. -/
def exampleFpEvents : List RawFpEvent :=
  [{ api := "canvas", method := "toDataURL" },
   { api := "canvas", method := "toDataURL" },
   { api := "canvas", method := "toDataURL" },
   { api := "webgl", method := "getParameter", details := some "UNMASKED_RENDERER_WEBGL" }]

/-- C4: severity of a collected fingerprint log is NONE on an empty log,
PASSIVE when no active API family (canvas, webgl, audio) is observed, ACTIVE
when exactly one is, AGGRESSIVE when two or more are; and the concrete
canvas-plus-webgl log yields AGGRESSIVE with canvas and webgl detected and
audio not detected. -/
theorem fingerprint_severity_classification
    (reg : List String → List String) (findUrls : String → List (List String))
    (toIso : ℚ → String) (raw : List RawFpEvent) :
    (raw = [] → (collect_results reg findUrls toIso raw).severity = .none)
    ∧ (raw ≠ [] → (apisSeen raw).filter (fun a => a ∈ activeAPIs) = [] →
        (collect_results reg findUrls toIso raw).severity = .passive)
    ∧ (((apisSeen raw).filter (fun a => a ∈ activeAPIs)).length = 1 →
        (collect_results reg findUrls toIso raw).severity = .active)
    ∧ (2 ≤ ((apisSeen raw).filter (fun a => a ∈ activeAPIs)).length →
        (collect_results reg findUrls toIso raw).severity = .aggressive)
    ∧ (collect_results reg findUrls toIso exampleFpEvents).severity = .aggressive
    ∧ (collect_results reg findUrls toIso exampleFpEvents).canvas_detected = true
    ∧ (collect_results reg findUrls toIso exampleFpEvents).webgl_detected = true
    ∧ (collect_results reg findUrls toIso exampleFpEvents).audio_detected = false := by
  have hsev : (collect_results reg findUrls toIso raw).severity
      = classifySeverity (apisSeen raw) raw.length := by
    simp [collect_results]
  refine ⟨?_, ?_, ?_, ?_, rfl, rfl, rfl, rfl⟩
  · rintro rfl
    rfl
  · intro hne hfil
    rw [hsev]
    have hlen : raw.length ≠ 0 := by
      simpa [List.length_eq_zero] using hne
    simp [classifySeverity, hlen, hfil]
  · intro hone
    rw [hsev]
    have hne : (apisSeen raw).filter (fun a => a ∈ activeAPIs) ≠ [] := by
      intro h
      rw [h] at hone
      exact absurd hone (by decide)
    have hlen : raw.length ≠ 0 := by
      intro h
      rw [List.length_eq_zero] at h
      subst h
      exact hne rfl
    simp [classifySeverity, hlen, hne, hone]
  · intro htwo
    rw [hsev]
    have hne : (apisSeen raw).filter (fun a => a ∈ activeAPIs) ≠ [] := by
      intro h
      rw [h] at htwo
      exact absurd htwo (by decide)
    have hlen : raw.length ≠ 0 := by
      intro h
      rw [List.length_eq_zero] at h
      subst h
      exact hne rfl
    simp [classifySeverity, hlen, hne, htwo]

/-- Witness for C4: the empty log of any concrete collector yields severity
NONE, and the scenario-D log yields AGGRESSIVE. -/
theorem fingerprint_severity_witness :
    (collect_results extract_registered_domain (fun _ => []) (fun _ => "") []).severity
      = FingerprintSeverity.none
    ∧ (collect_results extract_registered_domain (fun _ => []) (fun _ => "")
        exampleFpEvents).severity = FingerprintSeverity.aggressive := by
  have h := fingerprint_severity_classification extract_registered_domain
    (fun _ => []) (fun _ => "") []
  exact ⟨h.1 rfl, h.2.2.2.2.1⟩

/-- The classifier returns entity and category together: either both set or
both nil. -/
theorem classify_shape (reg : List String → List String)
    (L : List (List String × String × String)) (d : List String) :
    (∃ e c, classify reg L d = (some e, some c)) ∨ classify reg L d = (none, none) := by
  unfold classify
  rcases h1 : lookupFind L d with _ | ⟨e, c⟩
  · rcases h2 : lookupFind L (reg d) with _ | ⟨e, c⟩
    · rcases h3 : walkParents L d with _ | ⟨e, c⟩
      · right
        simp
      · left
        exact ⟨e, c, by simp⟩
    · left
      exact ⟨e, c, by simp⟩
  · left
    exact ⟨e, c, by simp⟩

/-- A nil entity forces a nil category. -/
theorem classify_none_pair (reg : List String → List String)
    (L : List (List String × String × String)) (d : List String)
    (h : (classify reg L d).1 = none) : classify reg L d = (none, none) := by
  rcases classify_shape reg L d with ⟨e, c, hec⟩ | hnn
  · rw [hec] at h
    exact absurd h (by simp)
  · exact hnn

/-- C2 (amended): a request that is not third-party is classified
`content_1p`; a third-party request whose domain the tracker database does
not know at all (nil entity, hence nil category) and which hits none of the
CDN, functional or ad domain sets and patterns is classified `unknown_3p`. -/
theorem classify_request_unknown_spec :
    (∀ (reg : List String → List String) (record : RequestRecord) site,
      record.is_third_party = false →
      classify_request reg record site = "content_1p")
    ∧ (∀ (reg : List String → List String) (record : RequestRecord) site,
      record.is_third_party = true →
      (classify reg builtinTrackers record.domain).1 = none →
      joinDots record.domain ∉ CDN_DOMAINS →
      (∀ pat ∈ CDN_PATTERNS, strContains (joinDots record.domain) pat = false) →
      joinDots record.domain ∉ FUNCTIONAL_3P_DOMAINS →
      (∀ pat ∈ FUNCTIONAL_3P_PATTERNS, strContains (joinDots record.domain) pat = false) →
      (∀ pat ∈ AD_DOMAIN_PATTERNS, strContains (joinDots record.domain) pat = false) →
      classify_request reg record site = "unknown_3p") := by
  constructor
  · intro reg record site h3p
    simp [classify_request, h3p]
    rfl
  · intro reg record site h3p hent hcdn hcdnp hfun hfunp hadp
    have hpair := classify_none_pair reg builtinTrackers record.domain hent
    have hcdnp2 : (CDN_PATTERNS.any
        (fun pat => strContains (joinDots record.domain) pat)) = false := by
      rw [Bool.eq_false_iff]
      intro h
      rcases List.any_eq_true.mp h with ⟨pat, hmem, hpat⟩
      rw [hcdnp pat hmem] at hpat
      exact absurd hpat (by decide)
    have hfunp2 : (FUNCTIONAL_3P_PATTERNS.any
        (fun pat => strContains (joinDots record.domain) pat)) = false := by
      rw [Bool.eq_false_iff]
      intro h
      rcases List.any_eq_true.mp h with ⟨pat, hmem, hpat⟩
      rw [hfunp pat hmem] at hpat
      exact absurd hpat (by decide)
    have hadp2 : (AD_DOMAIN_PATTERNS.any
        (fun pat => strContains (joinDots record.domain) pat)) = false := by
      rw [Bool.eq_false_iff]
      intro h
      rcases List.any_eq_true.mp h with ⟨pat, hmem, hpat⟩
      rw [hadp pat hmem] at hpat
      exact absurd hpat (by decide)
    simp [classify_request, h3p, hpair, hcdn, hcdnp2, hfun, hfunp2, hadp2]
    rfl

/-- Witness for C2 at a concrete unknown third-party domain. -/
theorem classify_request_unknown_witness :
    classify_request extract_registered_domain
      { url := "https://example.org/app.js", domain := ["example", "org"],
        method := "GET", resource_type := "script", is_third_party := true }
      ["idnes", "cz"] = "unknown_3p" :=
  classify_request_unknown_spec.2 extract_registered_domain
    { url := "https://example.org/app.js", domain := ["example", "org"],
      method := "GET", resource_type := "script", is_third_party := true }
    ["idnes", "cz"] rfl (by decide) (by decide) (by decide) (by decide)
    (by decide) (by decide)

/-- Counterexample for C2 as stated: the third-party domain `googleapis.com`
has tracker category `cdn` (none of advertising, analytics, fingerprinting,
social), hits no CDN, functional or ad set or pattern, yet
`classify_request` returns `tracker` (via the nonempty-entity fallback), not
`unknown_3p`. -/
theorem classify_request_googleapis_counterexample :
    (classify extract_registered_domain builtinTrackers ["googleapis", "com"]).2 = some "cdn"
    ∧ ((classify extract_registered_domain builtinTrackers ["googleapis", "com"]).2
        ∉ [some "advertising", some "analytics", some "fingerprinting", some "social"])
    ∧ joinDots ["googleapis", "com"] ∉ CDN_DOMAINS
    ∧ (CDN_PATTERNS.any (fun pat => strContains (joinDots ["googleapis", "com"]) pat)) = false
    ∧ joinDots ["googleapis", "com"] ∉ FUNCTIONAL_3P_DOMAINS
    ∧ (FUNCTIONAL_3P_PATTERNS.any
        (fun pat => strContains (joinDots ["googleapis", "com"]) pat)) = false
    ∧ (AD_DOMAIN_PATTERNS.any
        (fun pat => strContains (joinDots ["googleapis", "com"]) pat)) = false
    ∧ classify_request extract_registered_domain
        { url := "https://googleapis.com/x.js", domain := ["googleapis", "com"],
          method := "GET", resource_type := "script", is_third_party := true }
        ["idnes", "cz"] = "tracker"
    ∧ ("tracker" : String) ≠ "unknown_3p" := by
  refine ⟨by decide, by decide, by decide, by decide, by decide, by decide, by decide,
    by decide, by decide⟩

/-- The match test of `on_response` spelled as a proposition. -/
theorem respMatches_eq_false_iff (resp : RespInfo) (x : RequestRecord) :
    respMatches resp x = false ↔ ¬(x.url = resp.url ∧ x.status_code = none) := by
  simp [respMatches, not_and]

/-- The reversed-list scan leaves a list with no matching record unchanged. -/
theorem onResponseRev_no_match (resp : RespInfo) (l : List RequestRecord)
    (h : ∀ x ∈ l, respMatches resp x = false) : onResponseRev resp l = l := by
  induction l with
  | nil => rfl
  | cons a l ih =>
    rw [onResponseRev, h a (List.mem_cons_self a l),
      ih (fun x hx => h x (List.mem_cons_of_mem a hx))]
    simp

/-- The reversed-list scan updates the first matching record and stops. -/
theorem onResponseRev_first_match (resp : RespInfo) (xs : List RequestRecord)
    (r : RequestRecord) (ys : List RequestRecord)
    (hxs : ∀ x ∈ xs, respMatches resp x = false) (hr : respMatches resp r = true) :
    onResponseRev resp (xs ++ r :: ys) = xs ++ setResp r resp :: ys := by
  induction xs with
  | nil => simp [onResponseRev, hr]
  | cons a xs ih =>
    rw [List.cons_append, onResponseRev, hxs a (List.mem_cons_self a xs),
      ih (fun x hx => hxs x (List.mem_cons_of_mem a hx))]
    simp

/-- C9: a response event updates exactly the most recently appended request
record that has the response's URL and no status yet, writing status, size,
content type and latency there; a list with no such record (every record with
that URL already answered) is left unchanged; and the update stamps the
status, so the same record is never overwritten by a later response. -/
theorem on_response_updates_latest_unanswered :
    (∀ (pre : List RequestRecord) r post resp,
      r.url = resp.url → r.status_code = none →
      (∀ x ∈ post, ¬(x.url = resp.url ∧ x.status_code = none)) →
      on_response (pre ++ r :: post) resp = pre ++ setResp r resp :: post)
    ∧ (∀ (records : List RequestRecord) resp,
      (∀ x ∈ records, ¬(x.url = resp.url ∧ x.status_code = none)) →
      on_response records resp = records)
    ∧ (∀ r resp, (setResp r resp).status_code = some resp.status) := by
  refine ⟨?_, ?_, fun r resp => rfl⟩
  · intro pre r post resp hurl hst hpost
    have hrev : (pre ++ r :: post).reverse = post.reverse ++ r :: pre.reverse := by
      simp
    have hmr : respMatches resp r = true := by
      simp [respMatches, hurl, hst]
    have hxs : ∀ x ∈ post.reverse, respMatches resp x = false := by
      intro x hx
      exact (respMatches_eq_false_iff resp x).mpr (hpost x (List.mem_reverse.mp hx))
    rw [on_response, hrev, onResponseRev_first_match resp post.reverse r pre.reverse hxs hmr]
    simp
  · intro records resp h
    have hall : ∀ x ∈ records.reverse, respMatches resp x = false := by
      intro x hx
      exact (respMatches_eq_false_iff resp x).mpr (h x (List.mem_reverse.mp hx))
    rw [on_response, onResponseRev_no_match resp records.reverse hall, List.reverse_reverse]

/-- Witness for C9: a concrete capture list with two records for the same URL,
the earlier one already answered. -/
theorem on_response_witness :
    on_response
      [{ url := "https://a.cz/x", domain := ["a", "cz"], method := "GET",
         resource_type := "script", is_third_party := false, status_code := some 200 },
       { url := "https://a.cz/x", domain := ["a", "cz"], method := "GET",
         resource_type := "script", is_third_party := false }]
      { url := "https://a.cz/x", status := 304 }
    = [{ url := "https://a.cz/x", domain := ["a", "cz"], method := "GET",
         resource_type := "script", is_third_party := false, status_code := some 200 },
       setResp
         { url := "https://a.cz/x", domain := ["a", "cz"], method := "GET",
           resource_type := "script", is_third_party := false }
         { url := "https://a.cz/x", status := 304 }] := by
  have h := on_response_updates_latest_unanswered.1
    [{ url := "https://a.cz/x", domain := ["a", "cz"], method := "GET",
       resource_type := "script", is_third_party := false, status_code := some 200 }]
    { url := "https://a.cz/x", domain := ["a", "cz"], method := "GET",
      resource_type := "script", is_third_party := false }
    []
    { url := "https://a.cz/x", status := 304 }
    rfl rfl (by intro x hx; exact absurd hx (List.not_mem_nil x))
  exact h

/-- A `findSome?` scan is unchanged by removing the elements on which the
scan function is `none`. -/
theorem findSome?_filter_congr {α β : Type} (f : α → Option β) (p : α → Bool)
    (l : List α) (h : ∀ x ∈ l, p x = false → f x = none) :
    (l.filter p).findSome? f = l.findSome? f := by
  induction l with
  | nil => rfl
  | cons a l ih =>
    have ih2 := ih (fun x hx => h x (List.mem_cons_of_mem a hx))
    cases hpa : p a with
    | true =>
      cases hfa : f a <;>
        simp [List.filter_cons, hpa, List.findSome?_cons, hfa, ih2]
    | false =>
      simp [List.filter_cons, hpa, List.findSome?_cons, h a (List.mem_cons_self a l) hpa, ih2]

/-- C6 (amended): every consent strategy that iterates the configured phrase
lists over page or frame elements — `get_by_text`, `get_by_role`, the
CSS-banner container scan, the full-page text match, the iframe text match
and the nested-iframe scan — skips the `"ok"` phrase entirely (its outcome is
unchanged when `"ok"` is removed from the phrase list); only the last-resort
OK scan clicks an `"OK"` element, and it requires the trimmed text to
uppercase to exactly `"OK"` inside a consent-contextual ancestor, reports
`cmp_platform = ok_fallback`, and is reached only in ACCEPT mode.  (The
shadow-DOM banner strategy and the Seznam two-step flow, by contrast, do
match with the `"ok"` phrase; see the counterexample.) -/
theorem consent_ok_pattern_restricted :
    (∀ texts elsOf, try_get_by_text texts elsOf
        = try_get_by_text (texts.filter (fun t => t ≠ "ok")) elsOf)
    ∧ (∀ texts roleOf, try_get_by_role texts roleOf
        = try_get_by_role (texts.filter (fun t => t ≠ "ok")) roleOf)
    ∧ (∀ texts label buttons, find_button_in_container texts label buttons
        = find_button_in_container (texts.filter (fun t => t ≠ "ok")) label buttons)
    ∧ (∀ texts els, try_text_match_in_frame texts els
        = try_text_match_in_frame (texts.filter (fun t => t ≠ "ok")) els)
    ∧ (∀ texts frames, try_nested_iframe_cmp texts frames
        = try_nested_iframe_cmp (texts.filter (fun t => t ≠ "ok")) frames)
    ∧ (∀ mode a r els okb, try_text_match mode a r els okb
        = try_text_match mode (a.filter (fun t => t ≠ "ok"))
            (r.filter (fun t => t ≠ "ok")) els okb)
    ∧ (∀ buttons info, try_ok_button buttons = some info →
        info.cmp_platform = some "ok_fallback" ∧ info.button_text = some "OK"
        ∧ info.action_taken = true
        ∧ ∃ el ∈ buttons.take 30,
            strToUpper (strTrim el.text) = "OK" ∧ el.consentContext = true)
    ∧ (∀ mode a r els okb info, try_text_match mode a r els okb = some info →
        info.cmp_platform = some "ok_fallback" → mode = ConsentMode.accept) := by
  have hskip : ∀ (f : String → Option ConsentInfo),
      (∀ pat, pat = "ok" → f pat = none) →
      ∀ texts : List String,
        texts.findSome? f = (texts.filter (fun t => t ≠ "ok")).findSome? f := by
    intro f hf texts
    refine (findSome?_filter_congr f _ texts ?_).symm
    intro x _ hx
    exact hf x (by simpa using hx)
  refine ⟨?_, ?_, ?_, ?_, ?_, ?_, ?_, ?_⟩
  · intro texts elsOf
    exact hskip _ (fun pat hpat => by simp [hpat]) texts
  · intro texts roleOf
    exact hskip _ (fun pat hpat => by simp [hpat]) texts
  · intro texts label buttons
    exact hskip _ (fun pat hpat => by simp [hpat]) texts
  · intro texts els
    exact hskip _ (fun pat hpat => by simp [hpat]) texts
  · intro texts frames
    unfold try_nested_iframe_cmp
    congr 1
    funext fr
    by_cases hkw : (nestedIframeKeywords.any (fun kw => strContains (strToLower fr.1) kw)) = true
    · simp only [hkw, if_true]
      exact hskip _ (fun pat hpat => by simp [hpat]) texts
    · simp only [Bool.not_eq_true] at hkw
      simp [hkw]
  · intro mode a r els okb
    unfold try_text_match
    by_cases hm : mode = ConsentMode.accept
    · simp only [hm, if_true]
      rw [← hskip _ (fun pat hpat => by simp [hpat]) a]
    · simp only [hm, if_false]
      rw [← hskip _ (fun pat hpat => by simp [hpat]) r]
  · intro buttons info h
    obtain ⟨el, hel, hf⟩ := List.exists_of_findSome?_eq_some h
    by_cases h1 : strToUpper (strTrim el.text) = "OK"
    · by_cases h2 : el.consentContext = true
      · simp only [h1, h2, ne_eq, not_true_eq_false, if_false, if_true] at hf
        cases hf
        exact ⟨rfl, rfl, rfl, el, hel, h1, h2⟩
      · simp only [Bool.not_eq_true] at h2
        simp [h1, h2] at hf
    · simp [h1] at hf
  · intro mode a r els okb info h hcmp
    by_cases hm : mode = ConsentMode.accept
    · exact hm
    · exfalso
      simp only [try_text_match, if_neg hm] at h
      split at h
      · rename_i res heq
        cases h
        obtain ⟨pat, _, hpat⟩ := List.exists_of_findSome?_eq_some heq
        by_cases hok : pat = "ok"
        · subst hok
          rw [if_pos rfl] at hpat
          exact Option.noConfusion hpat
        · simp only [if_neg hok] at hpat
          obtain ⟨el, _, helf⟩ := List.exists_of_findSome?_eq_some hpat
          split_ifs at helf
          cases helf
          simp at hcmp
      · exact Option.noConfusion h

/-- Witness for C6: the OK fallback clicks a concrete visible `"OK"` button
inside a consent-contextual container. -/
theorem consent_ok_pattern_witness :
    ∃ el ∈ ([{ text := "OK", visible := true, consentContext := true }]
        : List ElementInfo).take 30,
      strToUpper (strTrim el.text) = "OK" ∧ el.consentContext = true := by
  have h := consent_ok_pattern_restricted.2.2.2.2.2.2.1
    [{ text := "OK", visible := true, consentContext := true }]
    { banner_detected := true, cmp_platform := some "ok_fallback",
      button_text := some "OK", action_taken := true }
    (by decide)
  exact h.2.2.2

/-- Counterexample for C6 as stated: with a phrase list containing `"ok"`,
the shadow-DOM banner strategy clicks a button (`"Pokračovat"`) that it
matched via the `"ok"` pattern, reporting a `shadow_dom_<host>` platform,
not `ok_fallback`. -/
theorem consent_shadow_dom_ok_counterexample :
    shadowButtonsClick ["ok"] ["Pokračovat"] = some ("pokračovat", "ok")
    ∧ try_shadow_dom_banner ["ok"] [("szn-cwl", some ["Pokračovat"])]
        = some { banner_detected := true, cmp_platform := some "shadow_dom_szn-cwl",
                 button_text := some "pokračovat", action_taken := true }
    ∧ ("shadow_dom_szn-cwl" : String) ≠ "ok_fallback" := by
  refine ⟨by decide, by decide, by decide⟩

/-- Entity suffix-consistency of a tracker table: whenever one key is a label
suffix of another, both entries carry the same entity (checked for all drops
up to the key length, which covers all drops). -/
def entityConsistentB (L : List (List String × String × String)) : Bool :=
  L.all (fun p => L.all (fun q =>
    (List.range (p.1.length + 1)).all (fun i =>
      if List.drop i p.1 = q.1 then decide (p.2.1 = q.2.1) else true)))

/-- The built-in tracker table is entity suffix-consistent. -/
theorem builtin_entity_consistent : entityConsistentB builtinTrackers = true := by decide

/-- Every key of the built-in tracker table is a non-empty label list. -/
theorem builtin_keys_nonempty : ∀ p ∈ builtinTrackers, p.1 ≠ [] := by decide

/-- Unfolding of the suffix-consistency check to its propositional form, for
arbitrary drop indices. -/
theorem entityConsistentB_spec (L : List (List String × String × String))
    (h : entityConsistentB L = true) :
    ∀ p ∈ L, ∀ q ∈ L, ∀ i, List.drop i p.1 = q.1 → p.2.1 = q.2.1 := by
  intro p hp q hq i hdrop
  have h1 := List.all_eq_true.mp h p hp
  have h2 := List.all_eq_true.mp h1 q hq
  have hmin : min i p.1.length ∈ List.range (p.1.length + 1) :=
    List.mem_range.mpr (Nat.lt_succ_of_le (Nat.min_le_right _ _))
  have h3 := List.all_eq_true.mp h2 _ hmin
  have hdropmin : List.drop (min i p.1.length) p.1 = List.drop i p.1 := by
    rcases Nat.le_total i p.1.length with hle | hle
    · rw [Nat.min_eq_left hle]
    · rw [Nat.min_eq_right hle, List.drop_eq_nil_of_le le_rfl,
        List.drop_eq_nil_of_le hle]
  rw [hdropmin] at h3
  rw [if_pos hdrop] at h3
  exact of_decide_eq_true h3

/-- The registered-domain extractor always returns a label suffix of its
input (the fallback returns the input itself). -/
theorem extract_registered_domain_is_drop (p : List String) :
    ∃ i, extract_registered_domain p = List.drop i p := by
  unfold extract_registered_domain
  split
  · rename_i i _
    by_cases h1 : 1 ≤ i
    · exact ⟨i - 1, by rw [if_pos h1]⟩
    · exact ⟨0, by rw [if_neg h1, List.drop_zero]⟩
  · exact ⟨0, (List.drop_zero p).symm⟩

/-- A successful dictionary lookup exposes its table entry. -/
theorem lookupFind_mem {L : List (List String × String × String)}
    {k : List String} {v : String × String} (h : lookupFind L k = some v) :
    ∃ p ∈ L, p.1 = k ∧ p.2 = v := by
  unfold lookupFind at h
  rcases hf : L.find? (fun e => e.1 = k) with _ | p
  · rw [hf] at h
    exact absurd h (by simp)
  · rw [hf] at h
    have hpred := List.find?_some hf
    refine ⟨p, List.mem_of_find?_eq_some hf, by simpa using hpred, ?_⟩
    simpa using h

/-- The empty label list is never a key when all keys are non-empty. -/
theorem lookupFind_nil_none {L : List (List String × String × String)}
    (hkeys : ∀ p ∈ L, p.1 ≠ []) : lookupFind L ([] : List String) = none := by
  unfold lookupFind
  have hf : L.find? (fun e => e.1 = ([] : List String)) = none :=
    List.find?_eq_none.mpr (fun x hx => by simpa using hkeys x hx)
  rw [hf]
  rfl

/-- Any classifier hit names a table entry keyed by a label suffix of the
queried domain (given that the registered-domain extractor returns label
suffixes). -/
theorem classify_hit_suffix {reg : List String → List String}
    {L : List (List String × String × String)} {d : List String} {e c : String}
    (hreg : ∀ p, ∃ i, reg p = List.drop i p)
    (h : classify reg L d = (some e, some c)) :
    ∃ i, lookupFind L (List.drop i d) = some (e, c) := by
  unfold classify at h
  rcases h0 : lookupFind L d with _ | ⟨e0, c0⟩
  · simp only [h0] at h
    rcases h1 : lookupFind L (reg d) with _ | ⟨e1, c1⟩
    · simp only [h1] at h
      rcases h2 : walkParents L d with _ | ⟨e2, c2⟩
      · simp only [h2] at h
        exact absurd h (by simp)
      · simp only [h2] at h
        obtain ⟨he, hc⟩ : e2 = e ∧ c2 = c := by simpa [Prod.ext_iff] using h
        subst he
        subst hc
        unfold walkParents at h2
        obtain ⟨i, _, hi⟩ := List.exists_of_findSome?_eq_some h2
        exact ⟨i, hi⟩
    · simp only [h1] at h
      obtain ⟨he, hc⟩ : e1 = e ∧ c1 = c := by simpa [Prod.ext_iff] using h
      subst he
      subst hc
      obtain ⟨j, hj⟩ := hreg d
      exact ⟨j, by rw [← hj]; exact h1⟩
  · simp only [h0] at h
    obtain ⟨he, hc⟩ : e0 = e ∧ c0 = c := by simpa [Prod.ext_iff] using h
    subst he
    subst hc
    exact ⟨0, by simpa using h0⟩

/-- When the classifier reports unknown, no label suffix of the queried
domain is a table key. -/
theorem classify_none_no_suffix {reg : List String → List String}
    {L : List (List String × String × String)} {d : List String}
    (hkeys : ∀ p ∈ L, p.1 ≠ [])
    (h : classify reg L d = (none, none)) (i : ℕ) :
    lookupFind L (List.drop i d) = none := by
  unfold classify at h
  rcases h0 : lookupFind L d with _ | ⟨e0, c0⟩
  · simp only [h0] at h
    rcases h1 : lookupFind L (reg d) with _ | ⟨e1, c1⟩
    · simp only [h1] at h
      rcases h2 : walkParents L d with _ | ⟨e2, c2⟩
      · rcases Nat.eq_zero_or_pos i with rfl | hpos
        · simpa using h0
        · by_cases hlt : i < d.length
          · unfold walkParents at h2
            exact List.findSome?_eq_none_iff.mp h2 i
              (List.mem_range'_1.mpr ⟨hpos, by omega⟩)
          · rw [List.drop_eq_nil_of_le (by omega)]
            exact lookupFind_nil_none hkeys
      · simp only [h2] at h
        exact absurd h (by simp)
    · simp only [h1] at h
      exact absurd h (by simp)
  · simp only [h0] at h
    exact absurd h (by simp)

/-- C7 (amended): when the classifier resolves a domain to a non-nil entity,
every proper subdomain (one or more labels prepended) resolves to the same
entity. -/
theorem classify_subdomain_entity_stable
    (reg : List String → List String)
    (hreg : ∀ p, ∃ i, reg p = List.drop i p)
    (pre d : List String) (hpre : pre ≠ [])
    (e : String) (hd : (classify reg builtinTrackers d).1 = some e) :
    (classify reg builtinTrackers (pre ++ d)).1 = some e := by
  rcases classify_shape reg builtinTrackers d with ⟨e1, c1, hec⟩ | hnn
  case inr =>
    rw [hnn] at hd
    exact absurd hd (by simp)
  have he1 : e1 = e := by
    rw [hec] at hd
    simpa using hd
  obtain ⟨i, hi⟩ := classify_hit_suffix hreg hec
  obtain ⟨p, hp, hpk, hpv⟩ := lookupFind_mem hi
  have hne : List.drop i d ≠ [] := by
    rw [← hpk]
    exact builtin_keys_nonempty p hp
  have hid : i < d.length := by
    by_contra hh
    exact hne (List.drop_eq_nil_of_le (by omega))
  have hsl : List.drop (pre.length + i) (pre ++ d) = List.drop i d :=
    List.drop_append i
  rcases classify_shape reg builtinTrackers (pre ++ d) with ⟨e2, c2, hec2⟩ | hnn2
  case inr =>
    have hnone := classify_none_no_suffix builtin_keys_nonempty hnn2 (pre.length + i)
    rw [hsl, hi] at hnone
    exact absurd hnone (by simp)
  obtain ⟨j, hj⟩ := classify_hit_suffix hreg hec2
  obtain ⟨q, hq, hqk, hqv⟩ := lookupFind_mem hj
  have hcons := entityConsistentB_spec builtinTrackers builtin_entity_consistent
  have hks : pre.length + i < (pre ++ d).length := by
    rw [List.length_append]
    omega
  have he21 : e2 = e1 := by
    rcases Nat.le_total j (pre.length + i) with hle | hle
    · have hqp : List.drop (pre.length + i - j) q.1 = p.1 := by
        rw [hqk, List.drop_drop, Nat.add_sub_cancel' hle, hsl, hpk]
      have hent := hcons q hq p hp (pre.length + i - j) hqp
      rw [hqv, hpv] at hent
      simpa using hent
    · have hpk2 : p.1 = List.drop (pre.length + i) (pre ++ d) := by
        rw [hsl, hpk]
      have hpq : List.drop (j - (pre.length + i)) p.1 = q.1 := by
        rw [hpk2, List.drop_drop, Nat.add_sub_cancel' hle, hqk]
      have hent := hcons p hp q hq (j - (pre.length + i)) hpq
      rw [hpv, hqv] at hent
      have hent2 : e1 = e2 := by simpa using hent
      exact hent2.symm
  rw [hec2]
  simp [he21, he1]

/-- Witness for C7 at a concrete subdomain of a known tracker domain. -/
theorem classify_subdomain_witness :
    (["www"] : List String) ≠ []
    ∧ (classify extract_registered_domain builtinTrackers ["google", "com"]).1 = some "Google"
    ∧ (classify extract_registered_domain builtinTrackers
        (["www"] ++ ["google", "com"])).1 = some "Google" := by
  refine ⟨by decide, by decide, ?_⟩
  exact classify_subdomain_entity_stable extract_registered_domain
    extract_registered_domain_is_drop ["www"] ["google", "com"] (by decide)
    "Google" (by decide)

/-- Counterexample for C7 as stated (with nil entities included): the bare
suffix `ru` classifies to no entity, while its proper subdomain `yandex.ru`
classifies to Yandex. -/
theorem classify_subdomain_nil_entity_counterexample :
    (classify extract_registered_domain builtinTrackers ["ru"]).1 = none
    ∧ (["yandex"] : List String) ≠ []
    ∧ (classify extract_registered_domain builtinTrackers
        (["yandex"] ++ ["ru"])).1 = some "Yandex"
    ∧ (some "Yandex" : Option String) ≠ none := by
  refine ⟨by decide, by decide, by decide, by decide⟩

end Footprint
